import Mathlib

/-!
Verification of the real-time messaging core of the WhatsApp-Clone
repository (whatsapp_app).  The definitions below are a shallow
embedding of `consumers.py` (the WebSocket consumers), the receipt /
message / call rows of `models.py`, and the relevant view functions of
`views.py` (`send_message`, `chat_detail_view`'s mark-as-read block,
`update_call_status`).  Database rows become records, querysets become
lists, `timezone.now()` becomes an explicit `now : Nat` parameter
(seconds), and the channel-layer `group_send` becomes an explicit list
of published events.
-/

namespace WhatsAppClone

/-- A row of `MessageReceipt` (models.py): one per (message, user) pair,
with a free-form status string and optional timestamps. -/
structure MessageReceipt where
  message_id : Nat
  user_id : Nat
  status : String
  delivered_at : Option Nat
  read_at : Option Nat
deriving DecidableEq, Repr

/-- A row of `Message` (models.py), restricted to the fields the
consumers touch. -/
structure Message where
  id : Nat
  chat_id : Nat
  sender_id : Nat
  content : String
  message_type : String
  created_at : Nat
  deleted_for_everyone : Bool
  reply_to : Option Nat
deriving DecidableEq, Repr

/-- A row of `Chat` with its many-to-many `participants` set. -/
structure Chat where
  id : Nat
  participants : List Nat
deriving DecidableEq, Repr

/-- A row of `User`, restricted to the presence flag the consumers
write. -/
structure User where
  id : Nat
  is_online : Bool
deriving DecidableEq, Repr

/-- A row of `Call` (models.py), restricted to the fields
`update_call_status` touches. -/
structure Call where
  id : Nat
  caller_id : Nat
  receiver_id : Nat
  status : String
  answered_at : Option Nat
  ended_at : Option Nat
  duration : Nat
deriving DecidableEq, Repr

/-- Events published to the channel layer by the chat consumer
(`group_send` payloads in consumers.py). -/
inductive Event where
  | chat_message (sender_id : Nat) (content : String) (created_at : Nat)
  | typing_indicator (user_id : Nat) (is_typing : Bool)
  | user_status (user_id : Nat) (is_online : Bool)
  | read_receipt (message_id : Nat) (user_id : Nat)
  | message_deleted (message_id : Nat) (delete_for_everyone : Bool)
deriving DecidableEq, Repr

/-- Django's `MessageReceipt.objects.get(message_id=..., user=...)`:
first row matching both keys (unique by the model's
`unique_together = ['message', 'user']`). -/
def getReceipt (receipts : List MessageReceipt) (uid mid : Nat) :
    Option MessageReceipt :=
  receipts.find? (fun r => r.message_id = mid && r.user_id = uid)

/-- `ChatConsumer.update_receipt` (consumers.py lines 245-261): fetch
the acting user's receipt for the message; if absent return `False`
(list unchanged); otherwise overwrite `status` with the requested
value, stamp `read_at := now` when the request is `'read'` and
`delivered_at := now` when it is `'delivered'`, save, return `True`. -/
def update_receipt (receipts : List MessageReceipt) (uid mid : Nat)
    (status : String) (now : Nat) : List MessageReceipt × Bool :=
  match receipts with
  | [] => ([], false)
  | r :: rest =>
    if r.message_id = mid && r.user_id = uid then
      (({ r with
          status := status,
          read_at := if status = "read" then some now else r.read_at,
          delivered_at :=
            if status = "delivered" then some now else r.delivered_at })
        :: rest, true)
    else
      let p := update_receipt rest uid mid status now
      (r :: p.1, p.2)

theorem update_receipt_of_getReceipt_none (receipts : List MessageReceipt)
    (uid mid : Nat) (status : String) (now : Nat)
    (h : getReceipt receipts uid mid = none) :
    update_receipt receipts uid mid status now = (receipts, false) := by
  induction receipts with
  | nil => rfl
  | cons r rest ih =>
    simp only [getReceipt, List.find?] at h
    rcases hc : (r.message_id = mid && r.user_id = uid) with _ | _
    · simp only [update_receipt, hc, Bool.false_eq_true, if_false]
      rw [hc] at h
      rw [ih h]
    · rw [hc] at h
      simp at h

theorem update_receipt_of_getReceipt_some (receipts : List MessageReceipt)
    (uid mid : Nat) (status : String) (now : Nat) (r : MessageReceipt)
    (h : getReceipt receipts uid mid = some r) :
    (update_receipt receipts uid mid status now).2 = true ∧
    getReceipt (update_receipt receipts uid mid status now).1 uid mid =
      some { r with
        status := status,
        read_at := if status = "read" then some now else r.read_at,
        delivered_at :=
          if status = "delivered" then some now else r.delivered_at } := by
  induction receipts with
  | nil => simp [getReceipt] at h
  | cons x rest ih =>
    simp only [getReceipt, List.find?] at h
    rcases hc : (x.message_id = mid && x.user_id = uid) with _ | _
    · rw [hc] at h
      simp only [update_receipt, hc, Bool.false_eq_true, if_false]
      have := ih h
      constructor
      · exact this.1
      · simpa [getReceipt, List.find?, hc] using this.2
    · rw [hc] at h
      simp only [Option.some.injEq] at h
      subst h
      constructor
      · simp [update_receipt, hc]
      · simp [update_receipt, getReceipt, List.find?, hc]

/-- `ChatConsumer.handle_read_receipt` (consumers.py lines 126-141):
call `update_receipt(message_id, 'read')`, ignore its return value, and
publish a `read_receipt` event to the chat group unconditionally.  The
group name is irrelevant here, so only the event list is returned. -/
def handle_read_receipt (receipts : List MessageReceipt) (uid mid now : Nat) :
    List MessageReceipt × List Event :=
  ((update_receipt receipts uid mid "read" now).1,
   [Event.read_receipt mid uid])

/-- **C1** (the claim as stated is false on the code).  At a store
holding one receipt in state `read`, an `update_receipt` request for
`sent` is not a no-op: the status regresses to `sent`; and a repeated
`read` request re-stamps `read_at` (50 becomes 60), so `read_at` is not
written exactly once. -/
theorem C1_counterexample :
    (update_receipt [(⟨1, 2, "read", none, some 50⟩ : MessageReceipt)]
        2 1 "sent" 60).1 ≠
      [(⟨1, 2, "read", none, some 50⟩ : MessageReceipt)] ∧
    (update_receipt [(⟨1, 2, "read", none, some 50⟩ : MessageReceipt)]
        2 1 "sent" 60).1 =
      [(⟨1, 2, "sent", none, some 50⟩ : MessageReceipt)] ∧
    (update_receipt [(⟨1, 2, "read", none, some 50⟩ : MessageReceipt)]
        2 1 "read" 60).1 =
      [(⟨1, 2, "read", none, some 60⟩ : MessageReceipt)] := by
  decide

/-- **C1** (amended).  `update_receipt` is not monotonic: whenever the
acting user's receipt for the message exists, the requested status is
written unconditionally — in particular a `read → sent` request
regresses the state — and `read_at` (resp. `delivered_at`) is re-stamped
with the current time on every `'read'` (resp. `'delivered'`) request,
not only on the first transition into that state. -/
theorem C1_receipt_overwrite (receipts : List MessageReceipt) (uid mid : Nat)
    (status : String) (now : Nat) (r : MessageReceipt)
    (h : getReceipt receipts uid mid = some r) :
    (update_receipt receipts uid mid status now).2 = true ∧
    getReceipt (update_receipt receipts uid mid status now).1 uid mid =
      some { r with
        status := status,
        read_at := if status = "read" then some now else r.read_at,
        delivered_at :=
          if status = "delivered" then some now else r.delivered_at } :=
  update_receipt_of_getReceipt_some receipts uid mid status now r h

/-- Witness for C1: a `read` receipt concretely regressed to `sent`. -/
theorem C1_witness :
    (update_receipt [(⟨1, 2, "read", none, some 50⟩ : MessageReceipt)]
        2 1 "sent" 60).2 = true ∧
    getReceipt (update_receipt
        [(⟨1, 2, "read", none, some 50⟩ : MessageReceipt)] 2 1 "sent" 60).1
        2 1 =
      some ⟨1, 2, "sent", none, some 50⟩ := by
  have h := C1_receipt_overwrite
    [(⟨1, 2, "read", none, some 50⟩ : MessageReceipt)] 2 1 "sent" 60
    ⟨1, 2, "read", none, some 50⟩ rfl
  simpa using h

/-- **C8** (the claim as stated is false on the code).  With an empty
receipt store (so the lookup is a not-found), `handle_read_receipt`
leaves the store unchanged but still publishes the `read_receipt`
event: the event list is not empty. -/
theorem C8_counterexample :
    handle_read_receipt [] 7 1 50 = ([], [Event.read_receipt 1 7]) ∧
    (handle_read_receipt [] 7 1 50).2 ≠ [] := by
  decide

/-- **C8** (amended).  On a not-found `read_receipt` frame the store is
indeed unchanged, but the `read_receipt` event is published anyway:
`handle_read_receipt` ignores `update_receipt`'s failure return and
calls `group_send` unconditionally. -/
theorem C8_not_found_still_publishes (receipts : List MessageReceipt)
    (uid mid now : Nat) (h : getReceipt receipts uid mid = none) :
    handle_read_receipt receipts uid mid now =
      (receipts, [Event.read_receipt mid uid]) := by
  simp [handle_read_receipt,
    update_receipt_of_getReceipt_none receipts uid mid "read" now h]

/-- Witness for C8 at a store holding a receipt for another message. -/
theorem C8_witness :
    handle_read_receipt [(⟨9, 7, "sent", none, none⟩ : MessageReceipt)]
        7 1 50 =
      ([(⟨9, 7, "sent", none, none⟩ : MessageReceipt)],
       [Event.read_receipt 1 7]) := by
  exact C8_not_found_still_publishes
    [(⟨9, 7, "sent", none, none⟩ : MessageReceipt)] 7 1 50 rfl

/-- The world the chat consumer operates on: durable rows, the channel
layer's group membership (`(group_name, channel_name)` pairs), and the
log of events published with `group_send`. -/
structure ChatState where
  chats : List Chat
  users : List User
  messages : List Message
  receipts : List MessageReceipt
  groups : List (String × String)
  events : List (String × Event)
deriving DecidableEq, Repr

/-- `ChatConsumer.check_participant` (consumers.py lines 204-211):
fetch the chat by id (`False` on `DoesNotExist`) and test whether the
connecting user is among its participants. -/
def check_participant (chats : List Chat) (chat_id uid : Nat) : Bool :=
  match chats.find? (fun c => c.id = chat_id) with
  | some chat => chat.participants.contains uid
  | none => false

/-- `ChatConsumer.update_online_status` (consumers.py lines 283-287): a
plain boolean overwrite of `user.is_online` — no reference counting. -/
def update_online_status (users : List User) (uid : Nat) (is_online : Bool) :
    List User :=
  users.map (fun u => if u.id = uid then { u with is_online := is_online } else u)

/-- `ChatConsumer.connect` (consumers.py lines 19-50): run the
membership check; on failure close the socket immediately (state
untouched, `false` returned); on success join the chat group, accept,
flip the user online, and publish a `user_status` online event to the
group.  The `Bool` is whether the connection was accepted. -/
def connect (st : ChatState) (chat_id uid : Nat) (channel : String) :
    ChatState × Bool :=
  let group := "chat_" ++ toString chat_id
  if check_participant st.chats chat_id uid then
    ({ st with
        groups := st.groups ++ [(group, channel)],
        users := update_online_status st.users uid true,
        events := st.events ++ [(group, Event.user_status uid true)] }, true)
  else
    (st, false)

/-- `ChatConsumer.disconnect` (consumers.py lines 52-70): leave the chat
group, flip the user offline, and publish a `user_status` offline event
— unconditionally, with no check for other live connections. -/
def disconnect (st : ChatState) (chat_id uid : Nat) (channel : String) :
    ChatState :=
  let group := "chat_" ++ toString chat_id
  { st with
      groups := st.groups.filter (fun g => !(g.1 = group && g.2 = channel)),
      users := update_online_status st.users uid false,
      events := st.events ++ [(group, Event.user_status uid false)] }

theorem update_online_status_find (users : List User) (uid : Nat) (b : Bool)
    (u : User) (hu : users.find? (fun x => x.id = uid) = some u) :
    (update_online_status users uid b).find? (fun x => x.id = uid) =
      some { u with is_online := b } := by
  induction users with
  | nil => simp [List.find?] at hu
  | cons x rest ih =>
    simp only [List.find?] at hu
    rcases hx : (decide (x.id = uid)) with _ | _
    · rw [hx] at hu
      have hne : ¬ (x.id = uid) := of_decide_eq_false hx
      simp only [update_online_status, List.map, List.find?, if_neg hne, hx]
      exact ih hu
    · rw [hx] at hu
      simp only [Option.some.injEq] at hu
      subst hu
      have heq : x.id = uid := of_decide_eq_true hx
      simp [update_online_status, List.find?, if_pos heq, heq]

/-- **C2** (the claim as stated is false on the code).  User 7 is a
participant of chat 1 and opens two simultaneous connections: two
online `user_status` events are published, not one.  Disconnecting one
of the two connections then marks user 7 offline and publishes an
offline event even though the other connection is still subscribed. -/
theorem C2_counterexample :
    (let st0 : ChatState :=
      ⟨[⟨1, [7, 8]⟩], [⟨7, false⟩, ⟨8, false⟩], [], [], [], []⟩
    let st2 := (connect (connect st0 1 7 "conn_a").1 1 7 "conn_b").1
    let st3 := disconnect st2 1 7 "conn_a"
    st2.events.countP (fun e => e.2 = Event.user_status 7 true) = 2 ∧
    ("chat_1", "conn_b") ∈ st3.groups ∧
    st3.users.find? (fun u => u.id = 7) = some ⟨7, false⟩ ∧
    ("chat_1", Event.user_status 7 false) ∈ st3.events) := by
  decide

/-- **C2** (amended).  Presence is a per-connection boolean overwrite,
not a reference count: every accepted `connect` sets the user's
`is_online` to `true` and publishes one online event (so N simultaneous
connections publish N online events), and every `disconnect` sets
`is_online` to `false` and publishes one offline event regardless of
the user's other live connections, which remain subscribed. -/
theorem C2_presence_per_connection (st : ChatState) (chat_id uid : Nat)
    (channel : String) (u : User)
    (hcp : check_participant st.chats chat_id uid = true)
    (hu : st.users.find? (fun x => x.id = uid) = some u) :
    ((connect st chat_id uid channel).1.users.find? (fun x => x.id = uid) =
        some { u with is_online := true } ∧
      (connect st chat_id uid channel).1.events =
        st.events ++ [("chat_" ++ toString chat_id, Event.user_status uid true)]) ∧
    ((disconnect st chat_id uid channel).users.find? (fun x => x.id = uid) =
        some { u with is_online := false } ∧
      (disconnect st chat_id uid channel).events =
        st.events ++ [("chat_" ++ toString chat_id, Event.user_status uid false)] ∧
      ∀ g ∈ st.groups,
        ¬ (g.1 = "chat_" ++ toString chat_id ∧ g.2 = channel) →
          g ∈ (disconnect st chat_id uid channel).groups) := by
  refine ⟨⟨?_, ?_⟩, ⟨?_, ?_, ?_⟩⟩
  · simp only [connect, if_pos hcp]
    exact update_online_status_find st.users uid true u hu
  · simp [connect, if_pos hcp]
  · exact update_online_status_find st.users uid false u hu
  · simp [disconnect]
  · intro g hg hne
    simp only [disconnect]
    refine List.mem_filter.mpr ⟨hg, ?_⟩
    simp only [Bool.not_eq_true', Bool.and_eq_false_iff, decide_eq_false_iff_not]
    by_cases h1 : g.1 = "chat_" ++ toString chat_id
    · exact Or.inr (fun h2 => hne ⟨h1, h2⟩)
    · exact Or.inl h1

/-- Witness for C2: user 7 still has connection `conn_b` subscribed,
yet disconnecting `conn_a` flips them offline. -/
theorem C2_witness :
    (disconnect
        ⟨[⟨1, [7, 8]⟩], [⟨7, false⟩], [], [], [("chat_1", "conn_b")], []⟩
        1 7 "conn_a").users.find? (fun x => x.id = 7) = some ⟨7, false⟩ ∧
    ("chat_1", "conn_b") ∈
      (disconnect
        ⟨[⟨1, [7, 8]⟩], [⟨7, false⟩], [], [], [("chat_1", "conn_b")], []⟩
        1 7 "conn_a").groups := by
  have h := C2_presence_per_connection
    ⟨[⟨1, [7, 8]⟩], [⟨7, false⟩], [], [], [("chat_1", "conn_b")], []⟩
    1 7 "conn_a" ⟨7, false⟩ (by decide) (by decide)
  exact ⟨h.2.1, h.2.2.2 ("chat_1", "conn_b") (by decide) (by decide)⟩

/-- **C9** (confirmed).  When no chat with the requested id lists the
connecting user among its participants (the chat is absent, or the user
is not a member), `connect` returns with the state untouched and the
connection refused: no group subscription, no online flip, no published
event, no persisted row. -/
theorem C9_connect_unauthorized (st : ChatState) (chat_id uid : Nat)
    (channel : String)
    (h : ∀ c ∈ st.chats, c.id = chat_id → uid ∉ c.participants) :
    connect st chat_id uid channel = (st, false) := by
  have hcp : check_participant st.chats chat_id uid = false := by
    unfold check_participant
    rcases hf : st.chats.find? (fun c => c.id = chat_id) with _ | chat
    · simp [hf]
    · have hmem := List.mem_of_find?_eq_some hf
      have hid : chat.id = chat_id := by
        have hp := List.find?_some hf
        simpa using hp
      have hnot := h chat hmem hid
      simp [hf, hnot]
  simp [connect, hcp]

/-- Witness for C9: chat 1 exists but user 7 is not a participant. -/
theorem C9_witness :
    connect ⟨[⟨1, [8]⟩], [⟨7, false⟩], [], [], [], []⟩ 1 7 "conn_a" =
      (⟨[⟨1, [8]⟩], [⟨7, false⟩], [], [], [], []⟩, false) :=
  C9_connect_unauthorized _ 1 7 "conn_a" (by decide)

/-- A live WebSocket connection: its channel name and its user. -/
structure Connection where
  channel : String
  user_id : Nat
deriving DecidableEq, Repr

/-- `ChatConsumer.typing_indicator` (consumers.py lines 168-177): the
receiving connection writes the event to its socket only when the
event's `user_id` differs from the connection's own user. -/
def typing_indicator_sends (conn_user_id event_user_id : Nat) : Bool :=
  event_user_id != conn_user_id

/-- `CallConsumer.webrtc_signal` (consumers.py lines 338-346): same
own-user filter as the typing indicator. -/
def webrtc_signal_sends (conn_user_id event_user_id : Nat) : Bool :=
  event_user_id != conn_user_id

/-- Fan-out of a `typing_indicator` group_send: the channel layer
delivers to every connection in the group, and each connection's
handler then applies `typing_indicator_sends`. -/
def deliveredTyping (group : List Connection) (origin_user : Nat) :
    List Connection :=
  group.filter (fun c => typing_indicator_sends c.user_id origin_user)

/-- Fan-out of a WebRTC signaling group_send (`offer` / `answer` /
`ice_candidate`). -/
def deliveredWebrtc (group : List Connection) (origin_user : Nat) :
    List Connection :=
  group.filter (fun c => webrtc_signal_sends c.user_id origin_user)

/-- `ChatConsumer.chat_message` (lines 161-166): unconditional send. -/
def deliveredChatMessage (group : List Connection) : List Connection :=
  group

/-- `ChatConsumer.read_receipt` (lines 187-193): unconditional send. -/
def deliveredReadReceipt (group : List Connection) : List Connection :=
  group

/-- `ChatConsumer.message_deleted` (lines 195-201): unconditional
send. -/
def deliveredMessageDeleted (group : List Connection) : List Connection :=
  group

/-- **C3** (the claim as stated is false on the code).  User 7 has two
connections `a` and `b`; a typing indicator originating from connection
`a` is NOT delivered to connection `b`, even though `b` is subscribed
and is not the originating connection: the exclusion is by user, not by
connection, so the sender's other devices are also suppressed. -/
theorem C3_counterexample :
    ((⟨"b", 7⟩ : Connection) ∈
        ([⟨"a", 7⟩, ⟨"b", 7⟩, ⟨"c", 8⟩] : List Connection)) ∧
    (⟨"b", 7⟩ : Connection).channel ≠ "a" ∧
    (⟨"b", 7⟩ : Connection) ∉
      deliveredTyping [⟨"a", 7⟩, ⟨"b", 7⟩, ⟨"c", 8⟩] 7 := by
  decide

/-- **C3** (amended).  The echo suppression for typing indicators and
WebRTC call signaling excludes every connection belonging to the
originating user (not just the one originating connection), while
`chat_message`, `read_receipt`, and `message_deleted` events are
delivered to all subscribed connections unconditionally, including
every connection of the sender. -/
theorem C3_fanout_by_user (group : List Connection) (origin_user : Nat) :
    (∀ c, c ∈ deliveredTyping group origin_user ↔
        c ∈ group ∧ c.user_id ≠ origin_user) ∧
    (∀ c, c ∈ deliveredWebrtc group origin_user ↔
        c ∈ group ∧ c.user_id ≠ origin_user) ∧
    deliveredChatMessage group = group ∧
    deliveredReadReceipt group = group ∧
    deliveredMessageDeleted group = group := by
  refine ⟨?_, ?_, rfl, rfl, rfl⟩
  · intro c
    simp [deliveredTyping, typing_indicator_sends, List.mem_filter, ne_comm]
  · intro c
    simp [deliveredWebrtc, webrtc_signal_sends, List.mem_filter, ne_comm]

/-- Django's `Message.objects.get(id=message_id, sender=self.user)`
(consumers.py line 267): the row matching both the id and the sender,
`DoesNotExist` (here `none`) when the message is absent OR the
requester is not its sender. -/
def getMessage (messages : List Message) (mid uid : Nat) : Option Message :=
  messages.find? (fun m => m.id = mid && m.sender_id = uid)

/-- The tombstone written on delete-for-everyone (consumers.py lines
275-276). -/
def tombstone (m : Message) : Message :=
  { m with deleted_for_everyone := true, content := "This message was deleted" }

/-- `message.save()`: write the row back by primary key (ids are
unique, so this replaces the first row carrying `mid`). -/
def setMessage (messages : List Message) (mid : Nat) (m' : Message) :
    List Message :=
  match messages with
  | [] => []
  | m :: rest =>
    if m.id = mid then m' :: rest else m :: setMessage rest mid m'

/-- `ChatConsumer.delete_message` (consumers.py lines 263-281): fetch
the message by (id, sender) — `False` when not found; when
`delete_for_everyone` is requested, refuse (`False`, no mutation) if
more than one hour (3600 s) has passed since `created_at`, otherwise
tombstone the row; when it is a delete-for-me, mutate nothing and
return `True`. -/
def delete_message (messages : List Message) (uid mid : Nat)
    (delete_for_everyone : Bool) (now : Nat) : List Message × Bool :=
  match getMessage messages mid uid with
  | none => (messages, false)
  | some m =>
    if delete_for_everyone then
      if now - m.created_at > 3600 then (messages, false)
      else (setMessage messages mid (tombstone m), true)
    else (messages, true)

/-- The slice of the durable store `handle_delete_message` can reach:
the `Message` table and the per-user `DeletedMessage` rows (the
consumer never imports or writes the latter). -/
structure DeleteStore where
  messages : List Message
  deleted_records : List (Nat × Nat)
deriving DecidableEq, Repr

/-- `ChatConsumer.handle_delete_message` (consumers.py lines 143-158):
run `delete_message`; publish a `message_deleted` event (echoing the
requested `delete_for_everyone` flag) only when it returned `True`. -/
def handle_delete_message (st : DeleteStore) (uid mid : Nat)
    (delete_for_everyone : Bool) (now : Nat) : DeleteStore × List Event :=
  let p := delete_message st.messages uid mid delete_for_everyone now
  if p.2 then
    ({ st with messages := p.1 },
     [Event.message_deleted mid delete_for_everyone])
  else
    ({ st with messages := p.1 }, [])

/-- **C4** (confirmed).  A delete-for-everyone request succeeds exactly
when the requester is the message's sender (the (id, sender) lookup
finds a row) and at most one hour has elapsed since `created_at`; on
any failure the store — messages and per-user deletion rows alike — is
returned unchanged and no event is published; on success the row is
tombstoned and one `message_deleted` event is published. -/
theorem C4_delete_for_everyone_guard (st : DeleteStore) (uid mid now : Nat) :
    (getMessage st.messages mid uid = none →
      handle_delete_message st uid mid true now = (st, [])) ∧
    (∀ m, getMessage st.messages mid uid = some m →
      (now - m.created_at > 3600 →
        handle_delete_message st uid mid true now = (st, [])) ∧
      (now - m.created_at ≤ 3600 →
        handle_delete_message st uid mid true now =
          ({ st with messages := setMessage st.messages mid (tombstone m) },
           [Event.message_deleted mid true]))) := by
  constructor
  · intro h
    simp [handle_delete_message, delete_message, h]
  · intro m hm
    constructor
    · intro hlate
      simp [handle_delete_message, delete_message, hm, if_pos hlate]
    · intro hok
      have hnot : ¬ (now - m.created_at > 3600) := by omega
      simp [handle_delete_message, delete_message, hm, if_neg hnot]

/-- Witness for C4: the sender tombstones their own fresh message. -/
theorem C4_witness :
    handle_delete_message
        ⟨[⟨1, 5, 7, "hi", "text", 100, false, none⟩], []⟩ 7 1 true 200 =
      (⟨[⟨1, 5, 7, "This message was deleted", "text", 100, true, none⟩], []⟩,
       [Event.message_deleted 1 true]) := by
  have h := (C4_delete_for_everyone_guard
      ⟨[⟨1, 5, 7, "hi", "text", 100, false, none⟩], []⟩ 7 1 200).2
      ⟨1, 5, 7, "hi", "text", 100, false, none⟩ (by decide)
  have h2 := h.2 (by omega)
  simpa [setMessage, tombstone] using h2

/-- **C10** (confirmed).  A delete-for-me frame from the message's own
sender publishes a `message_deleted` event with
`delete_for_everyone = false` although nothing in the store changes:
the message row is untouched and no per-user deletion row is written
(the consumer has no code path that creates one). -/
theorem C10_delete_for_me_publishes (st : DeleteStore) (uid mid now : Nat)
    (m : Message) (hm : getMessage st.messages mid uid = some m) :
    handle_delete_message st uid mid false now =
      (st, [Event.message_deleted mid false]) := by
  simp [handle_delete_message, delete_message, hm]

/-- Witness for C10 at a concrete one-message store. -/
theorem C10_witness :
    handle_delete_message
        ⟨[⟨1, 5, 7, "hi", "text", 100, false, none⟩], []⟩ 7 1 false 99999 =
      (⟨[⟨1, 5, 7, "hi", "text", 100, false, none⟩], []⟩,
       [Event.message_deleted 1 false]) :=
  C10_delete_for_me_publishes _ 7 1 99999
    ⟨1, 5, 7, "hi", "text", 100, false, none⟩ (by decide)

/-- `ChatConsumer.save_message` (consumers.py lines 213-243): fetch the
chat (`None` on failure, caught by the bare `except`), create one
`Message` row with the connection's user as sender, the given content,
type `'text'` and the optional reply target, then create one `'sent'`
receipt for every participant except the sender.  `new_mid` stands for
the id the database assigns, `now` for `created_at`. -/
def save_message (st : ChatState) (chat_id uid : Nat) (content : String)
    (reply_to_id : Option Nat) (new_mid now : Nat) :
    ChatState × Option Message :=
  match st.chats.find? (fun c => c.id = chat_id) with
  | none => (st, none)
  | some chat =>
    let message : Message :=
      ⟨new_mid, chat_id, uid, content, "text", now, false, reply_to_id⟩
    ({ st with
        messages := st.messages ++ [message],
        receipts := st.receipts ++
          (chat.participants.filter (fun p => !(p = uid))).map
            (fun q => ⟨new_mid, q, "sent", none, none⟩) },
     some message)

theorem receipts_countP_self (l : List Nat) (uid new_mid : Nat) :
    ((l.filter (fun x => !(x = uid))).map
        (fun q => (⟨new_mid, q, "sent", none, none⟩ : MessageReceipt))).countP
      (fun r => r.user_id = uid) = 0 := by
  induction l with
  | nil => rfl
  | cons x rest ih =>
    by_cases hx : x = uid
    · simp [List.filter_cons, hx, ih]
    · simp [List.filter_cons, hx, List.countP_cons, ih]

theorem receipts_countP_of_ne (l : List Nat) (uid new_mid p : Nat)
    (hp : p ≠ uid) :
    ((l.filter (fun x => !(x = uid))).map
        (fun q => (⟨new_mid, q, "sent", none, none⟩ : MessageReceipt))).countP
      (fun r => r.user_id = p) = l.count p := by
  induction l with
  | nil => simp
  | cons x rest ih =>
    by_cases hx : x = uid
    · subst hx
      have hxp : ¬ (x = p) := fun h => hp h.symm
      simpa [List.filter_cons, List.count_cons, hxp] using ih
    · simp [List.filter_cons, hx, List.countP_cons, List.count_cons, ih]

/-- **C5** (confirmed).  When the chat exists, `save_message` persists
exactly one `Message` row carrying the sender, the content and type
`text`, and appends one batch of fresh receipts in which every receipt
is for this message in state `sent`, the sender has none, each other
(distinct) participant has exactly one, and no one outside the
participant list has any. -/
theorem C5_save_message_receipts (st : ChatState) (chat_id uid : Nat)
    (content : String) (reply_to_id : Option Nat) (new_mid now : Nat)
    (chat : Chat) (hc : st.chats.find? (fun c => c.id = chat_id) = some chat)
    (hnd : chat.participants.Nodup) :
    ∃ newReceipts,
      save_message st chat_id uid content reply_to_id new_mid now =
        ({ st with
            messages := st.messages ++
              [⟨new_mid, chat_id, uid, content, "text", now, false, reply_to_id⟩],
            receipts := st.receipts ++ newReceipts },
         some ⟨new_mid, chat_id, uid, content, "text", now, false, reply_to_id⟩) ∧
      (∀ r ∈ newReceipts, r.message_id = new_mid ∧ r.status = "sent") ∧
      newReceipts.countP (fun r => r.user_id = uid) = 0 ∧
      (∀ p ∈ chat.participants, p ≠ uid →
        newReceipts.countP (fun r => r.user_id = p) = 1) ∧
      (∀ r ∈ newReceipts, r.user_id ∈ chat.participants) := by
  refine ⟨(chat.participants.filter (fun p => !(p = uid))).map
    (fun q => ⟨new_mid, q, "sent", none, none⟩), ?_, ?_, ?_, ?_, ?_⟩
  · simp [save_message, hc]
  · intro r hr
    rcases List.mem_map.mp hr with ⟨q, _, rfl⟩
    exact ⟨rfl, rfl⟩
  · exact receipts_countP_self chat.participants uid new_mid
  · intro p hp hne
    rw [receipts_countP_of_ne chat.participants uid new_mid p hne]
    exact List.count_eq_one_of_mem hnd hp
  · intro r hr
    rcases List.mem_map.mp hr with ⟨q, hq, rfl⟩
    exact (List.mem_filter.mp hq).1

/-- Witness for C5: user 7 sends "hi" in chat 1 whose participants are
7, 8, 9. -/
theorem C5_witness :
    ∃ newReceipts,
      save_message ⟨[⟨1, [7, 8, 9]⟩], [], [], [], [], []⟩ 1 7 "hi" none 1 100 =
        ({ (⟨[⟨1, [7, 8, 9]⟩], [], [], [], [], []⟩ : ChatState) with
            messages := [] ++ [⟨1, 1, 7, "hi", "text", 100, false, none⟩],
            receipts := [] ++ newReceipts },
         some ⟨1, 1, 7, "hi", "text", 100, false, none⟩) ∧
      (∀ r ∈ newReceipts, r.message_id = 1 ∧ r.status = "sent") ∧
      newReceipts.countP (fun r => r.user_id = 7) = 0 ∧
      (∀ p ∈ [7, 8, 9], p ≠ 7 →
        newReceipts.countP (fun r => r.user_id = p) = 1) ∧
      (∀ r ∈ newReceipts, r.user_id ∈ [7, 8, 9]) :=
  C5_save_message_receipts ⟨[⟨1, [7, 8, 9]⟩], [], [], [], [], []⟩ 1 7 "hi"
    none 1 100 ⟨1, [7, 8, 9]⟩ (by decide) (by decide)

/-- `update_call_status` (views.py lines 660-685): an if/elif chain on
the requested status string with no guard on the call's current status.
`'ongoing'` sets the status and stamps `answered_at := now`; `'ended'`
sets the status, stamps `ended_at := now`, and computes
`duration = ended_at - answered_at` when `answered_at` is set;
`'declined'` and `'missed'` just set the status; any other request
changes no field (the row is still saved).  Time is in seconds. -/
def update_call_status (call : Call) (status : String) (now : Nat) : Call :=
  if status = "ongoing" then
    { call with status := "ongoing", answered_at := some now }
  else if status = "ended" then
    let c := { call with status := "ended", ended_at := some now }
    match call.answered_at with
    | some a => { c with duration := now - a }
    | none => c
  else if status = "declined" then
    { call with status := "declined" }
  else if status = "missed" then
    { call with status := "missed" }
  else
    call

/-- **C6** (the claim as stated is false on the code).  A call that has
already reached the terminal state `ended` accepts a further
`'ongoing'` update: the status regresses to `ongoing` and `answered_at`
is re-stamped, so terminal states are not sticky. -/
theorem C6_counterexample :
    update_call_status ⟨1, 7, 8, "ended", some 10, some 20, 10⟩ "ongoing" 30 ≠
      ⟨1, 7, 8, "ended", some 10, some 20, 10⟩ ∧
    (update_call_status ⟨1, 7, 8, "ended", some 10, some 20, 10⟩
        "ongoing" 30).status = "ongoing" := by
  decide

/-- **C6** (amended).  `update_call_status` applies the requested
status unconditionally, whatever the current status — including from
the terminal states `ended`, `missed`, `declined`, `failed`:
`'ongoing'` always overwrites the status and re-stamps `answered_at`,
`'ended'` always overwrites and stamps `ended_at` (computing the
duration when `answered_at` is set), `'declined'` and `'missed'` always
overwrite, and only a request outside these four (including
`'ringing'` and `'failed'`) leaves the row unchanged. -/
theorem C6_update_call_status_unguarded (call : Call) (s : String)
    (now : Nat) :
    (s = "ongoing" → update_call_status call s now =
      { call with status := "ongoing", answered_at := some now }) ∧
    (s = "ended" → update_call_status call s now =
      (match call.answered_at with
       | some a =>
         { call with status := "ended", ended_at := some now,
                     duration := now - a }
       | none => { call with status := "ended", ended_at := some now })) ∧
    (s = "declined" → update_call_status call s now =
      { call with status := "declined" }) ∧
    (s = "missed" → update_call_status call s now =
      { call with status := "missed" }) ∧
    (s ≠ "ongoing" → s ≠ "ended" → s ≠ "declined" → s ≠ "missed" →
      update_call_status call s now = call) := by
  refine ⟨?_, ?_, ?_, ?_, ?_⟩
  · intro hs; subst hs
    simp [update_call_status]
  · intro hs; subst hs
    rcases ha : call.answered_at with _ | a <;> simp [update_call_status, ha]
  · intro hs; subst hs
    simp [update_call_status]
  · intro hs; subst hs
    simp [update_call_status]
  · intro h1 h2 h3 h4
    simp [update_call_status, h1, h2, h3, h4]

/-- Witness for C6: an `'ongoing'` request against an `ended` call is
applied. -/
theorem C6_witness :
    update_call_status ⟨1, 7, 8, "ended", some 10, some 20, 10⟩
        "ongoing" 30 =
      { (⟨1, 7, 8, "ended", some 10, some 20, 10⟩ : Call) with
          status := "ongoing", answered_at := some 30 } :=
  (C6_update_call_status_unguarded ⟨1, 7, 8, "ended", some 10, some 20, 10⟩
    "ongoing" 30).1 rfl

/-- The queryset of `chat_detail_view`'s mark-as-read block (views.py
lines 248-255): receipts whose message belongs to this chat, owned by
the opening user, currently in state `sent` or `delivered`, excluding
receipts of messages the user sent themselves.  A receipt joins its
message row through `message_id`. -/
def receiptInQuery (messages : List Message) (chat_id uid : Nat)
    (r : MessageReceipt) : Bool :=
  match messages.find? (fun m => m.id = r.message_id) with
  | some m =>
      m.chat_id = chat_id && r.user_id = uid &&
        (r.status = "sent" || r.status = "delivered") && !(m.sender_id = uid)
  | none => false

/-- `unread_receipts.update(status='read', read_at=timezone.now())`
(views.py line 255): one batched update writing every queryset row at
the same `now`. -/
def chat_detail_mark_read (receipts : List MessageReceipt)
    (messages : List Message) (chat_id uid now : Nat) :
    List MessageReceipt :=
  receipts.map (fun r =>
    if receiptInQuery messages chat_id uid r then
      { r with status := "read", read_at := some now }
    else r)

/-- **C7** (confirmed).  Opening a chat transitions, in one batched
update, every receipt owned by the opening user whose message belongs
to the chat, was not sent by that user, and is currently `sent` or
`delivered`, to `read` with `read_at = now`; receipts owned by someone
else, receipts already `read`, and receipts of the user's own messages
are returned unchanged. -/
theorem C7_chat_open_bulk_read (receipts : List MessageReceipt)
    (messages : List Message) (chat_id uid now : Nat) :
    ∀ (i : Nat) (hi : i < receipts.length),
      (∀ m, messages.find? (fun x => x.id = receipts[i].message_id) = some m →
        m.chat_id = chat_id → m.sender_id ≠ uid →
        receipts[i].user_id = uid →
        (receipts[i].status = "sent" ∨ receipts[i].status = "delivered") →
        (chat_detail_mark_read receipts messages chat_id uid now)[i]? =
          some { receipts[i] with status := "read", read_at := some now }) ∧
      (receipts[i].user_id ≠ uid →
        (chat_detail_mark_read receipts messages chat_id uid now)[i]? =
          some receipts[i]) ∧
      (receipts[i].status = "read" →
        (chat_detail_mark_read receipts messages chat_id uid now)[i]? =
          some receipts[i]) ∧
      (∀ m, messages.find? (fun x => x.id = receipts[i].message_id) = some m →
        m.sender_id = uid →
        (chat_detail_mark_read receipts messages chat_id uid now)[i]? =
          some receipts[i]) := by
  intro i hi
  have hsome : receipts[i]? = some receipts[i] := List.getElem?_eq_getElem hi
  have hmap : (chat_detail_mark_read receipts messages chat_id uid now)[i]? =
      some (if receiptInQuery messages chat_id uid receipts[i] then
        { receipts[i] with status := "read", read_at := some now }
      else receipts[i]) := by
    simp [chat_detail_mark_read, List.getElem?_map, hsome]
  refine ⟨?_, ?_, ?_, ?_⟩
  · intro m hm hchat hsender huid hst
    have hq : receiptInQuery messages chat_id uid receipts[i] = true := by
      rcases hst with h | h <;>
        simp [receiptInQuery, hm, hchat, huid, hsender, h]
    rw [hmap, hq]
    simp
  · intro hne
    have hq : receiptInQuery messages chat_id uid receipts[i] = false := by
      rcases hm : messages.find? (fun x => x.id = receipts[i].message_id)
          with _ | m
      · simp [receiptInQuery, hm]
      · simp [receiptInQuery, hm, hne]
    rw [hmap, hq]
    simp
  · intro hread
    have hq : receiptInQuery messages chat_id uid receipts[i] = false := by
      rcases hm : messages.find? (fun x => x.id = receipts[i].message_id)
          with _ | m
      · simp [receiptInQuery, hm]
      · simp [receiptInQuery, hm, hread]
    rw [hmap, hq]
    simp
  · intro m hm hself
    have hq : receiptInQuery messages chat_id uid receipts[i] = false := by
      simp [receiptInQuery, hm, hself]
    rw [hmap, hq]
    simp

/-- Witness for C7: user 8 opens chat 5 holding one `sent` receipt for
message 1 sent by user 7; the receipt becomes `read` at time 200. -/
theorem C7_witness :
    (chat_detail_mark_read [⟨1, 8, "sent", none, none⟩]
        [⟨1, 5, 7, "hi", "text", 100, false, none⟩] 5 8 200)[0]? =
      some ⟨1, 8, "read", none, some 200⟩ := by
  have h := (C7_chat_open_bulk_read [⟨1, 8, "sent", none, none⟩]
      [⟨1, 5, 7, "hi", "text", 100, false, none⟩] 5 8 200 0 (by decide)).1
    ⟨1, 5, 7, "hi", "text", 100, false, none⟩ (by decide) rfl (by decide)
    rfl (Or.inl rfl)
  simpa using h

end WhatsAppClone
